import Mathlib

/-!
Shallow embedding of the reconciliation engine of `odoo-relbase-sync`.

The repository compares a spreadsheet inventory extract against a live Odoo
ERP and drives gated corrective writes.  The embedding below follows the
source files:

* `compare_products_sources.py` — the price/stock comparator and batch runner;
* `compare_prices.py` — the price-only comparator (tolerance `1e-6`);
* `app/services/odoo_service.py` — the ERP write operations
  (`update_product_price`, `update_product_stock`) and the code lookup;
* `app/routes/excel.py` — the spreadsheet lookup by `Código`.

Python floats are modelled as rationals; Python `round(x, 2)` is modelled by
round-half-to-even on the scaled rational.  The remote ERP is modelled by an
explicit environment of responses, and each write operation returns the exact
trace of ERP calls it issues, so that theorems can speak about which writes
happen and with which field values.
-/

namespace RelbaseSync

/-- An Odoo product record, with the fields the scripts read
(`id`, `name`, `default_code`, `list_price`, `standard_price`,
`qty_available`).  Fields the JSON may omit are `Option`s. -/
structure OdooProduct where
  id : Nat
  name : String
  default_code : Option String
  list_price : ℚ
  standard_price : Option ℚ
  qty_available : Option ℚ
deriving DecidableEq, Repr

/-- A spreadsheet row, keyed by the sheet's Spanish column headers
(`Código`, `Producto`, `Precio neto`, `Stock disponible`). -/
structure ExcelData where
  codigo : Option String
  producto : Option String
  precio_neto : Option ℚ
  stock_disponible : Option ℚ
deriving DecidableEq, Repr

/-- Floor of a rational. -/
def ratFloor (q : ℚ) : ℤ := ⌊q⌋

/-- Round to the nearest integer, ties to even — the semantics of Python's
built-in `round`. -/
def roundHalfEven (q : ℚ) : ℤ :=
  let f : ℤ := ratFloor q
  if q - f < 1/2 then f
  else if 1/2 < q - f then f + 1
  else if f % 2 = 0 then f else f + 1

/-- Python `round(x, 2)`: round to two decimal places. -/
def pyRound2 (q : ℚ) : ℚ := (roundHalfEven (q * 100) : ℚ) / 100

/-- `calculated_price = round(precio_neto / 2.14, 2)` from both comparison
scripts. -/
def calculated_price (precio_neto : ℚ) : ℚ := pyRound2 (precio_neto / (214/100))

/-- The price tolerance `tolerance = 0.01` of
`compare_products_sources.compare_prices_and_stock`. -/
def priceTolerance : ℚ := 1/100

/-- The `1e-6` stock tolerance of
`compare_products_sources.compare_prices_and_stock`. -/
def stockTolerance : ℚ := 1/1000000

/-- A corrective write issued through the HTTP facade by the comparison
scripts: either a price update or a stock update. -/
inductive WriteCall where
  | priceUpdate (product_id : Nat) (list_price standard_price : ℚ)
  | stockUpdate (product_id : Nat) (quantity : ℚ)
deriving DecidableEq, Repr

/-- Outcome of the price half of a comparison, mirroring the printed
messages and actions of the scripts. -/
inductive PriceOutcome where
  | missingNetPrice
  | missingStandardPrice
  | equal
  | mismatchUpdated (list_price standard_price : ℚ)
  | mismatchSkipped
deriving DecidableEq, Repr

/-- Outcome of the stock half of `compare_prices_and_stock`. -/
inductive StockOutcome where
  | equal
  | mismatchUpdated (quantity : ℚ)
  | mismatchSkipped
  | missing
deriving DecidableEq, Repr

/-- The interactive `input("... (y/n)")` confirmations, abstracted as two
booleans: whether the operator answers `y` for the price update and for the
stock update of the current pair. -/
structure Gate where
  price : Bool
  stock : Bool
deriving DecidableEq, Repr

/-- The full result of `compare_prices_and_stock` for one pair: the price
outcome (`none` when the function returned before reaching the price
comparison), the stock outcome (`none` when the function returned before
reaching the stock comparison), and the corrective writes it issued. -/
structure CompareResult where
  price : Option PriceOutcome
  stock : Option StockOutcome
  writes : List WriteCall
deriving DecidableEq, Repr

/-- `compare_products_sources.compare_prices_and_stock`, line by line:
early return when either argument is `None`; early return (with a printed
missing-field message) when `Precio neto` or `standard_price` is absent;
price comparison with strict `< 0.01` tolerance, gated write of
`list_price = precio_neto, standard_price = calculated`; then stock
comparison with mismatch iff the absolute difference exceeds `1e-6`, gated
write of `quantity = excel_stock`. -/
def compare_prices_and_stock (odoo_product : Option OdooProduct)
    (excel_data : Option ExcelData) (gate : Gate) : CompareResult :=
  match odoo_product, excel_data with
  | none, _ => ⟨none, none, []⟩
  | _, none => ⟨none, none, []⟩
  | some p, some e =>
    match e.precio_neto with
    | none => ⟨some PriceOutcome.missingNetPrice, none, []⟩
    | some precio_neto =>
      match p.standard_price with
      | none => ⟨some PriceOutcome.missingStandardPrice, none, []⟩
      | some standard_price =>
        let calculated := calculated_price precio_neto
        let priceStep : PriceOutcome × List WriteCall :=
          if |standard_price - calculated| < priceTolerance then
            (PriceOutcome.equal, [])
          else if gate.price then
            (PriceOutcome.mismatchUpdated precio_neto calculated,
             [WriteCall.priceUpdate p.id precio_neto calculated])
          else
            (PriceOutcome.mismatchSkipped, [])
        let stockStep : StockOutcome × List WriteCall :=
          match p.qty_available, e.stock_disponible with
          | some odoo_stock, some excel_stock =>
            if stockTolerance < |odoo_stock - excel_stock| then
              if gate.stock then
                (StockOutcome.mismatchUpdated excel_stock,
                 [WriteCall.stockUpdate p.id excel_stock])
              else
                (StockOutcome.mismatchSkipped, [])
            else
              (StockOutcome.equal, [])
          | _, _ => (StockOutcome.missing, [])
        ⟨some priceStep.1, some stockStep.1, priceStep.2 ++ stockStep.2⟩

/-- `compare_prices.compare_prices`, the price-only flow: identical shape,
but its tolerance is the literal `1e-6`. -/
def compare_prices (odoo_product : Option OdooProduct)
    (excel_data : Option ExcelData) (gate : Bool) :
    Option PriceOutcome × List WriteCall :=
  match odoo_product, excel_data with
  | none, _ => (none, [])
  | _, none => (none, [])
  | some p, some e =>
    match e.precio_neto with
    | none => (some PriceOutcome.missingNetPrice, [])
    | some precio_neto =>
      match p.standard_price with
      | none => (some PriceOutcome.missingStandardPrice, [])
      | some standard_price =>
        let calculated := calculated_price precio_neto
        if |standard_price - calculated| < 1/1000000 then
          (some PriceOutcome.equal, [])
        else if gate then
          (some (PriceOutcome.mismatchUpdated precio_neto calculated),
           [WriteCall.priceUpdate p.id precio_neto calculated])
        else
          (some PriceOutcome.mismatchSkipped, [])

/-- A value stored in an Odoo record-values dictionary or search domain. -/
inductive EVal where
  | i (n : Int)
  | q (x : ℚ)
  | s (t : String)
  | link (cmd : Nat) (pid : Nat)
deriving DecidableEq, Repr

/-- A Python dict of field values, as passed to `create` / `write`. -/
abbrev Vals := List (String × EVal)

/-- One `(field, operator, value)` triple of an Odoo search domain. -/
abbrev DomainItem := String × String × EVal

/-- One XML-RPC `execute_kw` call issued by `OdooProductAPI`, as recorded in
the traces returned by the embedded write operations. -/
inductive ErpCall where
  | create (entity : String) (vals : Vals)
  | actionStart (entity : String) (ids : List Nat)
  | search (entity : String) (domain : List DomainItem) (limit : Option Nat)
  | write (entity : String) (ids : List Nat) (vals : Vals)
  | actionValidate (entity : String) (ids : List Nat)
  | read (entity : String) (ids : List Nat)
deriving DecidableEq, Repr

/-- The field values a call writes to the ERP: the `vals` of a `create` or
`write`, and nothing for the other calls. -/
def callVals : ErpCall → Vals
  | ErpCall.create _ vals => vals
  | ErpCall.write _ _ vals => vals
  | _ => []

/-- Python truthiness of an optional integer argument (`if location_id:`):
`None` and `0` are falsy. -/
def isTruthy : Option Nat → Bool
  | none => false
  | some n => n != 0

/-- The ERP-side responses consumed by one run of
`OdooProductAPI.update_product_stock`: the id handed back by the
`stock.inventory` create, the ids found by the `stock.inventory.line`
search, the ids found by the `stock.location` search, and the final
`product.product` read. -/
structure StockEnv where
  inventoryId : Nat
  lineSearch : List Nat
  locationSearch : List Nat
  productRead : Option OdooProduct
deriving DecidableEq, Repr

/-- The `ValueError`s `update_product_stock` can raise, tagged. -/
inductive StockErr where
  | noSuitableLocation
  | productNotFound (product_id : Nat)
deriving DecidableEq, Repr

/-- `OdooProductAPI.update_product_stock`, line by line: create a
`stock.inventory` adjustment named after the product, start it, search its
`stock.inventory.line`s for the product (adding a `location_id` clause only
when a truthy `location_id` was supplied); if lines are found overwrite
their `product_qty`, otherwise resolve a location (the supplied one, or the
first internal-usage location of company 1) and create a new line; validate
the adjustment; finally re-read and return the product
(`get_product_by_id`).  Returns the trace of ERP calls together with the
result. -/
def update_product_stock (env : StockEnv) (product_id : Nat)
    (new_quantity : ℚ) (location_id : Option Nat) :
    List ErpCall × Except StockErr OdooProduct :=
  let inventory_vals : Vals :=
    [("name", EVal.s ("Stock update for product ID " ++ toString product_id)),
     ("product_ids", EVal.link 4 product_id)]
  let inventory_id := env.inventoryId
  let t1 : List ErpCall :=
    [ErpCall.create "stock.inventory" inventory_vals,
     ErpCall.actionStart "stock.inventory" [inventory_id]]
  let baseDomain : List DomainItem :=
    [("inventory_id", "=", EVal.i inventory_id),
     ("product_id", "=", EVal.i product_id)]
  let lineDomain : List DomainItem :=
    if isTruthy location_id then
      baseDomain ++ [("location_id", "=", EVal.i (location_id.getD 0))]
    else baseDomain
  let t2 := t1 ++ [ErpCall.search "stock.inventory.line" lineDomain none]
  let line_ids := env.lineSearch
  let finish : List ErpCall → List ErpCall × Except StockErr OdooProduct :=
    fun t =>
      let t4 := t ++ [ErpCall.actionValidate "stock.inventory" [inventory_id],
                      ErpCall.read "product.product" [product_id]]
      match env.productRead with
      | none => (t4, Except.error (StockErr.productNotFound product_id))
      | some p => (t4, Except.ok p)
  if line_ids ≠ [] then
    finish (t2 ++ [ErpCall.write "stock.inventory.line" line_ids
      [("product_qty", EVal.q new_quantity)]])
  else
    let location_domain : List DomainItem :=
      if isTruthy location_id then
        [("id", "=", EVal.i (location_id.getD 0))]
      else
        [("usage", "=", EVal.s "internal"), ("company_id", "=", EVal.i 1)]
    let t3 := t2 ++ [ErpCall.search "stock.location" location_domain (some 1)]
    match env.locationSearch with
    | [] => (t3, Except.error StockErr.noSuitableLocation)
    | l :: _ =>
      let line_vals : Vals :=
        [("inventory_id", EVal.i inventory_id),
         ("product_id", EVal.i product_id),
         ("location_id", EVal.i l),
         ("product_qty", EVal.q new_quantity)]
      finish (t3 ++ [ErpCall.create "stock.inventory.line" line_vals])

/-- The ERP-side responses consumed by `update_product_price`: whether the
`write` returns a truthy result, and the final `product.product` read. -/
structure PriceEnv where
  writeResult : Bool
  productRead : Option OdooProduct
deriving DecidableEq, Repr

/-- The `ValueError`s `update_product_price` can raise, tagged. -/
inductive PriceErr where
  | invalidArgument
  | writeFailed (product_id : Nat)
  | productNotFound (product_id : Nat)
deriving DecidableEq, Repr

/-- The `update_vals` dict built by `update_product_price`: exactly the
supplied fields, `list_price` first. -/
def price_update_vals (list_price standard_price : Option ℚ) : Vals :=
  (match list_price with
   | some a => [("list_price", EVal.q a)]
   | none => []) ++
  (match standard_price with
   | some b => [("standard_price", EVal.q b)]
   | none => [])

/-- `OdooProductAPI.update_product_price`, line by line: raise when both
optional prices are `None`; otherwise write the supplied fields to the
`product.product` record, raise if the write reports failure, and finally
re-read and return the product (`get_product_by_id`).  Returns the trace of
ERP calls together with the result. -/
def update_product_price (env : PriceEnv) (product_id : Nat)
    (list_price standard_price : Option ℚ) :
    List ErpCall × Except PriceErr OdooProduct :=
  if list_price = none ∧ standard_price = none then
    ([], Except.error PriceErr.invalidArgument)
  else
    let update_vals := price_update_vals list_price standard_price
    let t1 := [ErpCall.write "product.product" [product_id] update_vals]
    if env.writeResult = false then
      (t1, Except.error (PriceErr.writeFailed product_id))
    else
      let t2 := t1 ++ [ErpCall.read "product.product" [product_id]]
      match env.productRead with
      | none => (t2, Except.error (PriceErr.productNotFound product_id))
      | some p => (t2, Except.ok p)

/-- `search_products` with the domain used by `get_product_by_code`:
records whose `default_code` equals the requested code, in stored
order. -/
def search_products_by_code (records : List OdooProduct) (code : String) :
    List OdooProduct :=
  records.filter (fun p => p.default_code == some code)

/-- `OdooProductAPI.get_product_by_code`: search by internal reference and
return `products[0]`, raising only when the search comes back empty. -/
def get_product_by_code (records : List OdooProduct) (code : String) :
    Except String OdooProduct :=
  match search_products_by_code records code with
  | [] => Except.error ("No product found with code " ++ code)
  | p :: _ => Except.ok p

/-- The pandas filter `current_stock_df[current_stock_df[Codigo] == codigo]`
of the spreadsheet route, in row order. -/
def excel_rows_by_code (rows : List ExcelData) (codigo : String) :
    List ExcelData :=
  rows.filter (fun r => r.codigo == some codigo)

/-- `routes/excel.get_product_by_code`: filter the sheet by `Código` and
return `product.iloc[0]`, answering 404 only when no row matches. -/
def excel_get_product_by_code (rows : List ExcelData) (codigo : String) :
    Except String ExcelData :=
  match excel_rows_by_code rows codigo with
  | [] => Except.error "Product not found"
  | r :: _ => Except.ok r

/-- Per-record outcome of the batch loop of
`compare_products_sources.main`. -/
inductive RecordOutcome where
  | skippedMissingCode
  | sourceLookupFailed
  | compared (result : CompareResult)
deriving DecidableEq, Repr

/-- The external world one batch run sees: the response of the initial
products fetch (`None` models a failed request), the per-code spreadsheet
lookup, and the operator's gate answers per product id. -/
structure RunEnv where
  products : Option (List OdooProduct)
  excel : String → Option ExcelData
  gate : Nat → Gate

/-- The body of the `for product in odoo_products` loop of
`compare_products_sources.main`: skip records with falsy `default_code`,
skip records whose spreadsheet lookup fails, and otherwise compare. -/
def process_record (env : RunEnv) (p : OdooProduct) : RecordOutcome :=
  match p.default_code with
  | none => RecordOutcome.skippedMissingCode
  | some code =>
    if code = "" then RecordOutcome.skippedMissingCode
    else
      match env.excel code with
      | none => RecordOutcome.sourceLookupFailed
      | some e =>
        RecordOutcome.compared
          (compare_prices_and_stock (some p) (some e) (env.gate p.id))

/-- `compare_products_sources.main`: abort (`None`) when the initial fetch
returns no products at all (`if not odoo_products`), otherwise process every
fetched record in order. -/
def main_run (env : RunEnv) : Option (List RecordOutcome) :=
  match env.products with
  | none => none
  | some ps =>
    if ps = [] then none
    else some (ps.map (process_record env))

/-! Concrete records used to instantiate the theorems below. -/

/-- A matched pair whose price and stock agree: `2.14 / 2.14 = 1`. -/
def cpA : OdooProduct := ⟨1, "prod-a", some "A1", 2, some 1, some 10⟩

/-- Spreadsheet row paired with `cpA`. -/
def ceA : ExcelData := ⟨some "A1", some "prod-a", some (107/50), some 10⟩

/-- A matched pair that mismatches on both families:
`round(100 / 2.14, 2) = 46.73 ≠ 50` and `10 ≠ 8`. -/
def cpB : OdooProduct := ⟨2, "prod-b", some "B2", 100, some 50, some 10⟩

/-- Spreadsheet row paired with `cpB`. -/
def ceB : ExcelData := ⟨some "B2", some "prod-b", some 100, some 8⟩

/-- ERP side of a pair whose stock difference is exactly the `1e-6`
tolerance. -/
def c3Prod : OdooProduct := ⟨3, "prod-c", some "C3", 2, some 1, some (1/1000000)⟩

/-- Spreadsheet side of the boundary pair: stock 0. -/
def c3Excel : ExcelData := ⟨some "C3", some "prod-c", some (107/50), some 0⟩

/-- ERP side of a pair with stock present on both sides. -/
def c4Prod : OdooProduct := ⟨4, "prod-d", some "D4", 2, some 1, some 5⟩

/-- Spreadsheet side with `Precio neto` absent but stock present (and
different from the ERP stock). -/
def c4Excel : ExcelData := ⟨some "D4", some "prod-d", none, some 3⟩

/-- A product snapshot returned by the ERP reads in the stock/price
environments. -/
def c2Prod : OdooProduct := ⟨42, "lamp", some "L42", 10, some 5, some 7⟩

/-- Stock environment in which the inventory-line search finds line `7`
and no stock location exists at all. -/
def c2EnvFound : StockEnv := ⟨5, [7], [], some c2Prod⟩

/-- Stock environment in which no inventory line is found and the location
search returns location `3`. -/
def c2EnvCreate : StockEnv := ⟨5, [], [3], some c2Prod⟩

/-- The exact trace `update_product_stock c2EnvFound 42 5 none` issues. -/
def c2TraceFound : List ErpCall :=
  [ErpCall.create "stock.inventory"
     [("name", EVal.s "Stock update for product ID 42"),
      ("product_ids", EVal.link 4 42)],
   ErpCall.actionStart "stock.inventory" [5],
   ErpCall.search "stock.inventory.line"
     [("inventory_id", "=", EVal.i 5), ("product_id", "=", EVal.i 42)] none,
   ErpCall.write "stock.inventory.line" [7] [("product_qty", EVal.q 5)],
   ErpCall.actionValidate "stock.inventory" [5],
   ErpCall.read "product.product" [42]]

/-- Does a call search the `stock.location` model? -/
def searchesLocation : ErpCall → Bool
  | ErpCall.search ent _ _ => ent == "stock.location"
  | _ => false

/-- A run environment in which every spreadsheet lookup fails, so every
record's processing fails individually. -/
def runEnvW : RunEnv := ⟨some [cpB, cpA], fun _ => none, fun _ => ⟨false, false⟩⟩

/-- First of two ERP products sharing the internal reference `DUP`. -/
def dupA : OdooProduct := ⟨7, "dup-a", some "DUP", 1, some 1, some 1⟩

/-- Second of two ERP products sharing the internal reference `DUP`. -/
def dupB : OdooProduct := ⟨8, "dup-b", some "DUP", 2, some 2, some 2⟩

/-- First of two spreadsheet rows sharing the code `DUP`. -/
def dupRowA : ExcelData := ⟨some "DUP", some "dup-a", some 1, some 1⟩

/-- Second of two spreadsheet rows sharing the code `DUP`. -/
def dupRowB : ExcelData := ⟨some "DUP", some "dup-b", some 2, some 2⟩

end RelbaseSync

/-! ## Evaluation helpers for the rounding arithmetic -/

namespace RelbaseSync

theorem roundHalfEven_of_lt (q : ℚ) (n : ℤ) (hf : ratFloor q = n)
    (h : q - n < 1/2) : roundHalfEven q = n := by
  simp only [roundHalfEven, hf]
  rw [if_pos h]

theorem roundHalfEven_of_gt (q : ℚ) (n : ℤ) (hf : ratFloor q = n)
    (h : 1/2 < q - n) : roundHalfEven q = n + 1 := by
  simp only [roundHalfEven, hf]
  rw [if_neg (by linarith), if_pos h]

theorem ratFloor_500000_107 : ratFloor (500000/107 : ℚ) = 4672 := by
  show ⌊(500000/107 : ℚ)⌋ = 4672
  rw [Int.floor_eq_iff]
  norm_num

theorem ratFloor_100 : ratFloor (100 : ℚ) = 100 := by
  show ⌊(100 : ℚ)⌋ = 100
  rw [Int.floor_eq_iff]
  norm_num

/-- `round(100 / 2.14, 2) = 46.73`, the reference example of the spec. -/
theorem calculated_price_100 : calculated_price 100 = 4673/100 := by
  have hq : (100 : ℚ) / (214/100) * 100 = 500000/107 := by norm_num
  have hr : roundHalfEven ((100 : ℚ) / (214/100) * 100) = 4673 := by
    rw [hq, roundHalfEven_of_gt _ 4672 ratFloor_500000_107 (by norm_num)]
    norm_num
  rw [calculated_price, pyRound2, hr]
  norm_num

/-- `round(2.14 / 2.14, 2) = 1`. -/
theorem calculated_price_214 : calculated_price (107/50) = 1 := by
  have hq : (107/50 : ℚ) / (214/100) * 100 = 100 := by norm_num
  have hr : roundHalfEven ((107/50 : ℚ) / (214/100) * 100) = 100 := by
    rw [hq, roundHalfEven_of_lt _ 100 ratFloor_100 (by norm_num)]
  rw [calculated_price, pyRound2, hr]
  norm_num

end RelbaseSync

namespace RelbaseSync

/-- Claim C1: for a matched pair whose source net price (`Precio neto`) and
ERP `standard_price` are both present, the price decision of
`compare_prices_and_stock` is "equal" iff
`|standard_price - round(precio_neto / 2.14, 2)|` is strictly below the
price tolerance, whose default value is `0.01`; a difference of exactly the
tolerance resolves to a mismatch. -/
theorem C1_price_equal_iff (p : OdooProduct) (e : ExcelData) (g : Gate)
    (pn sp : ℚ) (hpn : e.precio_neto = some pn)
    (hsp : p.standard_price = some sp) :
    ((compare_prices_and_stock (some p) (some e) g).price
        = some PriceOutcome.equal
      ↔ |sp - pyRound2 (pn / (214/100))| < priceTolerance)
    ∧ priceTolerance = 1/100
    ∧ (|sp - pyRound2 (pn / (214/100))| = priceTolerance →
        (compare_prices_and_stock (some p) (some e) g).price
            = some (PriceOutcome.mismatchUpdated pn (calculated_price pn))
          ∨ (compare_prices_and_stock (some p) (some e) g).price
            = some PriceOutcome.mismatchSkipped) := by
  refine ⟨?_, rfl, ?_⟩
  · simp only [compare_prices_and_stock, hpn, hsp, calculated_price]
    split_ifs with h1 h2 <;> simp [h1]
  · intro hb
    simp only [compare_prices_and_stock, hpn, hsp, calculated_price]
    split_ifs with h1 h2
    · rw [hb] at h1
      exact absurd h1 (lt_irrefl _)
    · left
      rfl
    · right
      rfl

/-- Witness for C1 at the concrete pair `cpA`/`ceA`. -/
theorem C1_price_equal_iff_witness :
    ((compare_prices_and_stock (some cpA) (some ceA) ⟨false, false⟩).price
        = some PriceOutcome.equal
      ↔ |(1 : ℚ) - pyRound2 ((107/50) / (214/100))| < priceTolerance)
    ∧ priceTolerance = 1/100
    ∧ (|(1 : ℚ) - pyRound2 ((107/50) / (214/100))| = priceTolerance →
        (compare_prices_and_stock (some cpA) (some ceA) ⟨false, false⟩).price
            = some (PriceOutcome.mismatchUpdated (107/50)
                (calculated_price (107/50)))
          ∨ (compare_prices_and_stock (some cpA) (some ceA) ⟨false, false⟩).price
            = some PriceOutcome.mismatchSkipped) :=
  C1_price_equal_iff cpA ceA ⟨false, false⟩ (107/50) 1 rfl rfl

/-- Claim C3 counterexample: at the pair `c3Prod`/`c3Excel` the absolute
stock difference is exactly the tolerance `1e-6`, yet the code's decision
is "equal" — the claim says a difference of exactly the tolerance resolves
to mismatch, and the code's comparison is `>` (equality iff `≤`), not the
claimed strict `<`. -/
theorem C3_counterexample :
    (compare_prices_and_stock (some c3Prod) (some c3Excel) ⟨false, false⟩).stock
      = some StockOutcome.equal
    ∧ |(1/1000000 : ℚ) - 0| = stockTolerance
    ∧ ¬ |(1/1000000 : ℚ) - 0| < stockTolerance := by
  have habs : |(1/1000000 : ℚ) - 0| = stockTolerance := by
    rw [sub_zero, abs_of_nonneg] <;> norm_num [stockTolerance]
  have hnot : ¬ stockTolerance < |(1/1000000 : ℚ) - 0| := by
    intro hc
    rw [habs] at hc
    exact lt_irrefl _ hc
  refine ⟨?_, habs, fun hlt => lt_irrefl stockTolerance (lt_of_eq_of_lt habs.symm hlt)⟩
  simp only [compare_prices_and_stock, c3Prod, c3Excel]
  rw [if_neg hnot]

/-- Claim C3 (amended): for a matched pair whose price fields are present
(so that the early missing-field returns are not taken) and whose ERP
`qty_available` and source `Stock disponible` are both present, the stock
decision is "equal" iff `|qty_available - available_stock| ≤ stockTolerance`
(non-strict), with `stockTolerance = 1e-6`; a difference of exactly the
tolerance resolves to equal. -/
theorem C3_stock_equal_iff (p : OdooProduct) (e : ExcelData) (g : Gate)
    (pn sp a b : ℚ) (hpn : e.precio_neto = some pn)
    (hsp : p.standard_price = some sp) (ha : p.qty_available = some a)
    (hb : e.stock_disponible = some b) :
    ((compare_prices_and_stock (some p) (some e) g).stock
        = some StockOutcome.equal
      ↔ |a - b| ≤ stockTolerance)
    ∧ stockTolerance = 1/1000000 := by
  refine ⟨?_, rfl⟩
  simp only [compare_prices_and_stock, hpn, hsp, ha, hb]
  split_ifs with h1 h2
  · simp [not_le.mpr h1]
  · simp [not_le.mpr h1]
  · simp [not_lt.mp h1]

/-- Witness for C3 (amended) at the boundary pair `c3Prod`/`c3Excel`. -/
theorem C3_stock_equal_iff_witness :
    ((compare_prices_and_stock (some c3Prod) (some c3Excel) ⟨false, false⟩).stock
        = some StockOutcome.equal
      ↔ |(1/1000000 : ℚ) - 0| ≤ stockTolerance)
    ∧ stockTolerance = 1/1000000 :=
  C3_stock_equal_iff c3Prod c3Excel ⟨false, false⟩ (107/50) 1 (1/1000000) 0
    rfl rfl rfl rfl

/-- Claim C4 counterexample: at the pair `c4Prod`/`c4Excel` the source
`Precio neto` is absent while both stock fields are present and differ; the
code emits the missing-field outcome and returns, performing no stock
comparison at all (`stock = none`) — the claim says the stock comparison is
still performed. -/
theorem C4_counterexample :
    compare_prices_and_stock (some c4Prod) (some c4Excel) ⟨true, true⟩
      = ⟨some PriceOutcome.missingNetPrice, none, []⟩
    ∧ c4Prod.qty_available = some 5
    ∧ c4Excel.stock_disponible = some 3
    ∧ (5 : ℚ) ≠ 3 :=
  ⟨rfl, rfl, rfl, by norm_num⟩

/-- Claim C4 (amended): the price and stock families are not independent in
the code: when the source net price is absent, or when it is present but
the ERP standard price is absent, a missing-field outcome is emitted (not
an error) and the whole pair is abandoned — the stock comparison is also
skipped and no write is issued. -/
theorem C4_missing_price_field_aborts_pair (p : OdooProduct) (e : ExcelData)
    (g : Gate) :
    (e.precio_neto = none →
      compare_prices_and_stock (some p) (some e) g
        = ⟨some PriceOutcome.missingNetPrice, none, []⟩)
    ∧ (∀ pn, e.precio_neto = some pn → p.standard_price = none →
      compare_prices_and_stock (some p) (some e) g
        = ⟨some PriceOutcome.missingStandardPrice, none, []⟩) := by
  constructor
  · intro h
    simp [compare_prices_and_stock, h]
  · intro pn hpn hsp
    simp [compare_prices_and_stock, hpn, hsp]

/-- Witness for C4 (amended) at the pair `c4Prod`/`c4Excel`. -/
theorem C4_missing_price_field_aborts_pair_witness :
    compare_prices_and_stock (some c4Prod) (some c4Excel) ⟨true, true⟩
      = ⟨some PriceOutcome.missingNetPrice, none, []⟩ :=
  (C4_missing_price_field_aborts_pair c4Prod c4Excel ⟨true, true⟩).1 rfl

/-- Characterization of the writes of `compare_prices_and_stock`: every
write was authorized by the corresponding gate answer, targets the paired
product, and corrects a detected mismatch with the computed values. -/
theorem writes_spec (op : Option OdooProduct) (ed : Option ExcelData)
    (g : Gate) (w : WriteCall)
    (hw : w ∈ (compare_prices_and_stock op ed g).writes) :
    ∃ p e, op = some p ∧ ed = some e ∧
      ((∃ pn sp, e.precio_neto = some pn ∧ p.standard_price = some sp ∧
          g.price = true ∧ ¬ |sp - calculated_price pn| < priceTolerance ∧
          w = WriteCall.priceUpdate p.id pn (calculated_price pn))
       ∨ (∃ pn sp a b, e.precio_neto = some pn ∧ p.standard_price = some sp ∧
          p.qty_available = some a ∧ e.stock_disponible = some b ∧
          g.stock = true ∧ stockTolerance < |a - b| ∧
          w = WriteCall.stockUpdate p.id b)) := by
  cases op with
  | none => simp [compare_prices_and_stock] at hw
  | some p =>
  cases ed with
  | none => simp [compare_prices_and_stock] at hw
  | some e =>
  refine ⟨p, e, rfl, rfl, ?_⟩
  rcases hpn : e.precio_neto with _ | pn
  · simp [compare_prices_and_stock, hpn] at hw
  rcases hsp : p.standard_price with _ | sp
  · simp [compare_prices_and_stock, hpn, hsp] at hw
  simp only [compare_prices_and_stock, hpn, hsp, List.mem_append] at hw
  rcases hw with hw | hw
  · left
    refine ⟨pn, sp, rfl, rfl, ?_⟩
    split_ifs at hw <;> simp_all
  · right
    rcases hqa : p.qty_available with _ | a
    · rw [hqa] at hw
      simp at hw
    rcases hsd : e.stock_disponible with _ | b
    · rw [hqa, hsd] at hw
      simp at hw
    rw [hqa, hsd] at hw
    dsimp only at hw
    refine ⟨pn, sp, a, b, rfl, rfl, rfl, rfl, ?_⟩
    by_cases h1 : stockTolerance < |a - b|
    · rw [if_pos h1] at hw
      by_cases h2 : g.stock = true
      · rw [if_pos h2] at hw
        simp at hw
        exact ⟨h2, h1, hw⟩
      · rw [if_neg h2] at hw
        simp at hw
    · rw [if_neg h1] at hw
      simp at hw

/-- The same characterization for the price-only script `compare_prices`:
a write happens only when the operator answered `y`. -/
theorem compare_prices_writes_spec (op : Option OdooProduct)
    (ed : Option ExcelData) (b : Bool) (w : WriteCall)
    (hw : w ∈ (compare_prices op ed b).2) :
    b = true ∧
    ∃ p e pn, op = some p ∧ ed = some e ∧ e.precio_neto = some pn ∧
      w = WriteCall.priceUpdate p.id pn (calculated_price pn) := by
  cases op with
  | none => simp [compare_prices] at hw
  | some p =>
  cases ed with
  | none => simp [compare_prices] at hw
  | some e =>
  rcases hpn : e.precio_neto with _ | pn
  · simp [compare_prices, hpn] at hw
  rcases hsp : p.standard_price with _ | sp
  · simp [compare_prices, hpn, hsp] at hw
  simp only [compare_prices, hpn, hsp] at hw
  split_ifs at hw with h1 h2
  · simp at hw
  · simp at hw
    exact ⟨h2, p, e, pn, rfl, rfl, hpn, hw⟩
  · simp at hw

/-- Claim C5: no ERP write is ever issued without the confirmation gate
authorizing it.  In both comparison flows, whenever the gate answer for a
family is `n` (false), no write of that family is ever present for the
pair; equivalently, any price write in the result implies the price gate
answered `y`, and likewise for stock. -/
theorem C5_no_write_without_gate (op : Option OdooProduct)
    (ed : Option ExcelData) (g : Gate) (w : WriteCall)
    (hw : w ∈ (compare_prices_and_stock op ed g).writes) :
    (∀ pid lp sp, w = WriteCall.priceUpdate pid lp sp → g.price = true)
    ∧ (∀ pid q, w = WriteCall.stockUpdate pid q → g.stock = true)
    ∧ (∀ (b : Bool) (w2 : WriteCall), w2 ∈ (compare_prices op ed b).2 →
         b = true) := by
  have tail : ∀ (b : Bool) (w2 : WriteCall), w2 ∈ (compare_prices op ed b).2 →
      b = true := fun b w2 hw2 => (compare_prices_writes_spec op ed b w2 hw2).1
  rcases writes_spec op ed g w hw with ⟨p, e, _, _, h | h⟩
  · rcases h with ⟨pn, sp, _, _, hg, _, hwp⟩
    subst hwp
    refine ⟨fun _ _ _ _ => hg, fun pid q hq => ?_, tail⟩
    exact nomatch hq
  · rcases h with ⟨pn, sp, a, b, _, _, _, _, hg, _, hwp⟩
    subst hwp
    refine ⟨fun pid lp sp hq => ?_, fun _ _ _ => hg, tail⟩
    exact nomatch hq

/-- Claim C6: the calculated price is `round(net_price / 2.14, 2)`, a pure
function of the source net price alone (never read from the ERP); for
`net_price = 100` it is `46.73`; and an authorized correction writes
exactly `standard_price = calculated` and `list_price = net_price`, in both
comparison flows. -/
theorem C6_calculated_price_derivation (p : OdooProduct) (e : ExcelData)
    (g : Gate) (pn : ℚ) (hpn : e.precio_neto = some pn) :
    calculated_price pn = pyRound2 (pn / (214/100))
    ∧ calculated_price 100 = 4673/100
    ∧ (∀ pid lp sp, WriteCall.priceUpdate pid lp sp
          ∈ (compare_prices_and_stock (some p) (some e) g).writes →
        pid = p.id ∧ lp = pn ∧ sp = calculated_price pn)
    ∧ (∀ (b : Bool) pid lp sp, WriteCall.priceUpdate pid lp sp
          ∈ (compare_prices (some p) (some e) b).2 →
        pid = p.id ∧ lp = pn ∧ sp = calculated_price pn) := by
  refine ⟨rfl, calculated_price_100, ?_, ?_⟩
  · intro pid lp sp hw
    rcases writes_spec _ _ _ _ hw with ⟨p2, e2, hp2, he2, h | h⟩
    · rcases h with ⟨pn2, sp2, hpn2, _, _, _, hwp⟩
      cases hp2
      cases he2
      rw [hpn] at hpn2
      cases hpn2
      cases hwp
      exact ⟨rfl, rfl, rfl⟩
    · rcases h with ⟨_, _, _, _, _, _, _, _, _, _, hwp⟩
      exact nomatch hwp
  · intro b pid lp sp hw
    rcases compare_prices_writes_spec _ _ _ _ hw with
      ⟨_, p2, e2, pn2, hp2, he2, hpn2, hwp⟩
    cases hp2
    cases he2
    rw [hpn] at hpn2
    cases hpn2
    cases hwp
    exact ⟨rfl, rfl, rfl⟩

/-- Full evaluation of the comparison at the mismatching pair `cpB`/`ceB`
with both gates answering `y`: both corrective writes are issued. -/
theorem compareB_eval :
    compare_prices_and_stock (some cpB) (some ceB) ⟨true, true⟩
      = ⟨some (PriceOutcome.mismatchUpdated 100 (4673/100)),
         some (StockOutcome.mismatchUpdated 8),
         [WriteCall.priceUpdate 2 100 (4673/100),
          WriteCall.stockUpdate 2 8]⟩ := by
  have h1 : ¬ |(50 : ℚ) - 4673/100| < priceTolerance := by
    rw [abs_of_nonneg (show (0:ℚ) ≤ 50 - 4673/100 by norm_num)]
    norm_num [priceTolerance]
  have h2 : stockTolerance < |(10 : ℚ) - 8| := by
    rw [abs_of_nonneg (show (0:ℚ) ≤ 10 - 8 by norm_num)]
    norm_num [stockTolerance]
  simp [compare_prices_and_stock, cpB, ceB, calculated_price_100, h1, h2]

/-- Witness for C5: at the pair `cpB`/`ceB` with both gates `y`, the issued
price write is indeed covered by the gate guarantees. -/
theorem C5_no_write_without_gate_witness :
    (∀ pid lp sp, WriteCall.priceUpdate 2 100 (4673/100)
        = WriteCall.priceUpdate pid lp sp → (⟨true, true⟩ : Gate).price = true)
    ∧ (∀ pid q, WriteCall.priceUpdate 2 100 (4673/100)
        = WriteCall.stockUpdate pid q → (⟨true, true⟩ : Gate).stock = true)
    ∧ (∀ (b : Bool) (w2 : WriteCall),
        w2 ∈ (compare_prices (some cpB) (some ceB) b).2 → b = true) :=
  C5_no_write_without_gate (some cpB) (some ceB) ⟨true, true⟩
    (WriteCall.priceUpdate 2 100 (4673/100))
    (by rw [compareB_eval]; simp)

/-- Witness for C6 at the pair `cpB`/`ceB` with `net_price = 100`. -/
theorem C6_calculated_price_derivation_witness :
    calculated_price 100 = pyRound2 ((100 : ℚ) / (214/100))
    ∧ calculated_price 100 = 4673/100
    ∧ (∀ pid lp sp, WriteCall.priceUpdate pid lp sp
          ∈ (compare_prices_and_stock (some cpB) (some ceB)
              ⟨true, true⟩).writes →
        pid = cpB.id ∧ lp = 100 ∧ sp = calculated_price 100)
    ∧ (∀ (b : Bool) pid lp sp, WriteCall.priceUpdate pid lp sp
          ∈ (compare_prices (some cpB) (some ceB) b).2 →
        pid = cpB.id ∧ lp = 100 ∧ sp = calculated_price 100) :=
  C6_calculated_price_derivation cpB ceB ⟨true, true⟩ 100 rfl

/-- Claim C7: `update_product_price` fails with the invalid-argument error
exactly when neither optional price field is supplied; otherwise its first
ERP call is a write to the `product.product` entity carrying exactly the
supplied fields (and no others), and whenever it succeeds it returns the
product snapshot obtained by the final re-read. -/
theorem C7_update_price_contract (env : PriceEnv) (pid : Nat)
    (lp sp : Option ℚ) :
    ((update_product_price env pid lp sp).2
        = Except.error PriceErr.invalidArgument ↔ lp = none ∧ sp = none)
    ∧ (¬ (lp = none ∧ sp = none) →
        (update_product_price env pid lp sp).1.head?
          = some (ErpCall.write "product.product" [pid]
              (price_update_vals lp sp)))
    ∧ (∀ prod, (update_product_price env pid lp sp).2 = Except.ok prod →
        env.productRead = some prod
        ∧ (update_product_price env pid lp sp).1
            = [ErpCall.write "product.product" [pid] (price_update_vals lp sp),
               ErpCall.read "product.product" [pid]])
    ∧ (∀ a, lp = some a →
        ("list_price", EVal.q a) ∈ price_update_vals lp sp)
    ∧ (∀ b, sp = some b →
        ("standard_price", EVal.q b) ∈ price_update_vals lp sp)
    ∧ (lp = none → ∀ v, ("list_price", v) ∉ price_update_vals lp sp)
    ∧ (sp = none → ∀ v, ("standard_price", v) ∉ price_update_vals lp sp) := by
  have hv1 : ∀ a, lp = some a →
      ("list_price", EVal.q a) ∈ price_update_vals lp sp := by
    intro a h
    subst h
    cases sp <;> simp [price_update_vals]
  have hv2 : ∀ b, sp = some b →
      ("standard_price", EVal.q b) ∈ price_update_vals lp sp := by
    intro b h
    subst h
    cases lp <;> simp [price_update_vals]
  have hv3 : lp = none → ∀ v, ("list_price", v) ∉ price_update_vals lp sp := by
    intro h v
    subst h
    cases sp <;> simp [price_update_vals]
  have hv4 : sp = none → ∀ v,
      ("standard_price", v) ∉ price_update_vals lp sp := by
    intro h v
    subst h
    cases lp <;> simp [price_update_vals]
  by_cases hboth : lp = none ∧ sp = none
  · refine ⟨?_, fun h => absurd hboth h, ?_, hv1, hv2, hv3, hv4⟩
    · simp [update_product_price, hboth]
    · intro prod hok
      rw [update_product_price, if_pos hboth] at hok
      exact nomatch hok
  · refine ⟨?_, ?_, ?_, hv1, hv2, hv3, hv4⟩
    · rw [update_product_price, if_neg hboth]
      by_cases hw : env.writeResult = false
      · rw [if_pos hw]
        simp [hboth]
      · rw [if_neg hw]
        rcases hpr : env.productRead with _ | prod0 <;> simp [hboth]
    · intro _
      rw [update_product_price, if_neg hboth]
      by_cases hw : env.writeResult = false
      · rw [if_pos hw]
        rfl
      · rw [if_neg hw]
        rcases hpr : env.productRead with _ | prod0 <;> rfl
    · intro prod hok
      rw [update_product_price, if_neg hboth] at hok
      by_cases hw : env.writeResult = false
      · rw [if_pos hw] at hok
        exact nomatch hok
      · rw [if_neg hw] at hok
        rcases hpr : env.productRead with _ | prod0 <;> rw [hpr] at hok
        · exact nomatch hok
        · cases hok
          refine ⟨rfl, ?_⟩
          rw [update_product_price, if_neg hboth, if_neg hw, hpr]
          rfl

/-- Witness for C7: a successful price update with both fields supplied. -/
theorem C7_update_price_contract_witness :
    (⟨true, some c2Prod⟩ : PriceEnv).productRead = some c2Prod
    ∧ (update_product_price ⟨true, some c2Prod⟩ 42 (some 100)
        (some (4673/100))).1
      = [ErpCall.write "product.product" [42]
           (price_update_vals (some 100) (some (4673/100))),
         ErpCall.read "product.product" [42]] :=
  (C7_update_price_contract ⟨true, some c2Prod⟩ 42 (some 100)
    (some (4673/100))).2.2.1 c2Prod rfl

/-- Claim C8: the batch run aborts as a whole exactly when the initial
products fetch returns nothing at all (a failed request or an empty list);
otherwise every fetched record is processed exactly once, in order, each
record's outcome depending only on that record — a failed spreadsheet
lookup or failed write for one record leaves every other record's
processing untouched and is never retried. -/
theorem C8_per_record_isolation (env : RunEnv) :
    (main_run env = none ↔ env.products = none ∨ env.products = some [])
    ∧ (∀ ps, env.products = some ps → ps ≠ [] →
        main_run env = some (ps.map (process_record env))) := by
  constructor
  · cases hp : env.products with
    | none => simp [main_run, hp]
    | some ps =>
      by_cases h : ps = []
      · subst h
        simp [main_run, hp]
      · simp [main_run, hp, h]
  · intro ps hps hne
    simp [main_run, hps, hne]

/-- Witness for C8: a two-record batch in which every spreadsheet lookup
fails still processes both records individually. -/
theorem C8_per_record_isolation_witness :
    main_run runEnvW = some ([cpB, cpA].map (process_record runEnvW)) :=
  (C8_per_record_isolation runEnvW).2 [cpB, cpA] rfl (by simp)

/-- Claim C9: both code lookups return the first matching record and
report no ambiguity when several records share the code; an error is
produced exactly when no record matches. -/
theorem C9_first_match_on_duplicates (records : List OdooProduct)
    (rows : List ExcelData) (code : String) (p : OdooProduct)
    (rest : List OdooProduct) (r : ExcelData) (rrest : List ExcelData)
    (hp : search_products_by_code records code = p :: rest)
    (hr : excel_rows_by_code rows code = r :: rrest) :
    get_product_by_code records code = Except.ok p
    ∧ excel_get_product_by_code rows code = Except.ok r
    ∧ (∀ (recs : List OdooProduct) (c : String),
        search_products_by_code recs c = [] →
        get_product_by_code recs c
          = Except.error ("No product found with code " ++ c))
    ∧ (∀ (rws : List ExcelData) (c : String),
        excel_rows_by_code rws c = [] →
        excel_get_product_by_code rws c
          = Except.error "Product not found") := by
  refine ⟨?_, ?_, ?_, ?_⟩
  · rw [get_product_by_code, hp]
  · rw [excel_get_product_by_code, hr]
  · intro recs c h
    rw [get_product_by_code, h]
  · intro rws c h
    rw [excel_get_product_by_code, h]

/-- Witness for C9: two ERP products and two spreadsheet rows share the
code `DUP`; both lookups silently return the first one. -/
theorem C9_first_match_on_duplicates_witness :
    get_product_by_code [dupA, dupB] "DUP" = Except.ok dupA
    ∧ excel_get_product_by_code [dupRowA, dupRowB] "DUP" = Except.ok dupRowA
    ∧ (∀ (recs : List OdooProduct) (c : String),
        search_products_by_code recs c = [] →
        get_product_by_code recs c
          = Except.error ("No product found with code " ++ c))
    ∧ (∀ (rws : List ExcelData) (c : String),
        excel_rows_by_code rws c = [] →
        excel_get_product_by_code rws c
          = Except.error "Product not found") :=
  C9_first_match_on_duplicates [dupA, dupB] [dupRowA, dupRowB] "DUP"
    dupA [dupB] dupRowA [dupRowB] rfl rfl

/-- Claim C10: when `update_product_stock` takes the create path (no
inventory line found) and no `location_id` was supplied, it resolves the
default location by searching internal-usage locations of the fixed
company id 1 (limit 1, first result) and raises the no-suitable-location
error exactly when that search returns nothing; the found location id is
used in the created inventory line. -/
theorem C10_default_location_company1 (env : StockEnv) (pid : Nat) (q : ℚ)
    (hline : env.lineSearch = []) :
    ErpCall.search "stock.location"
        [("usage", "=", EVal.s "internal"), ("company_id", "=", EVal.i 1)]
        (some 1)
      ∈ (update_product_stock env pid q none).1
    ∧ ((update_product_stock env pid q none).2
        = Except.error StockErr.noSuitableLocation ↔ env.locationSearch = [])
    ∧ (∀ l rest, env.locationSearch = l :: rest →
        ErpCall.create "stock.inventory.line"
          [("inventory_id", EVal.i env.inventoryId),
           ("product_id", EVal.i pid),
           ("location_id", EVal.i l),
           ("product_qty", EVal.q q)]
          ∈ (update_product_stock env pid q none).1) := by
  rcases hloc : env.locationSearch with _ | ⟨l0, rest0⟩
  · refine ⟨?_, ?_, ?_⟩
    · simp [update_product_stock, hline, hloc, isTruthy]
    · simp [update_product_stock, hline, hloc, isTruthy]
    · intro l rest h
      exact nomatch h
  · rcases hpr : env.productRead with _ | prod0
    · refine ⟨?_, ?_, ?_⟩
      · simp [update_product_stock, hline, hloc, hpr, isTruthy]
      · simp [update_product_stock, hline, hloc, hpr, isTruthy]
      · intro l rest h
        cases h
        simp [update_product_stock, hline, hloc, hpr, isTruthy]
    · refine ⟨?_, ?_, ?_⟩
      · simp [update_product_stock, hline, hloc, hpr, isTruthy]
      · simp [update_product_stock, hline, hloc, hpr, isTruthy]
      · intro l rest h
        cases h
        simp [update_product_stock, hline, hloc, hpr, isTruthy]

/-- Witness for C10 at the create-path environment `c2EnvCreate`. -/
theorem C10_default_location_company1_witness :
    ErpCall.search "stock.location"
        [("usage", "=", EVal.s "internal"), ("company_id", "=", EVal.i 1)]
        (some 1)
      ∈ (update_product_stock c2EnvCreate 42 5 none).1
    ∧ ((update_product_stock c2EnvCreate 42 5 none).2
        = Except.error StockErr.noSuitableLocation
      ↔ c2EnvCreate.locationSearch = [])
    ∧ (∀ l rest, c2EnvCreate.locationSearch = l :: rest →
        ErpCall.create "stock.inventory.line"
          [("inventory_id", EVal.i c2EnvCreate.inventoryId),
           ("product_id", EVal.i 42),
           ("location_id", EVal.i l),
           ("product_qty", EVal.q 5)]
          ∈ (update_product_stock c2EnvCreate 42 5 none).1) :=
  C10_default_location_company1 c2EnvCreate 42 5 rfl

/-- Claim C2 counterexample: run `update_product_stock` for product `42`,
quantity `5`, no location, in the environment `c2EnvFound` (the
inventory-line search finds line `7` and there is no stock location in the
ERP at all).  The call succeeds with the explicit trace `c2TraceFound`,
refuting the claim on three points: (1) no inventory-count date
("now + 90 days") is stamped — every field ever written belongs to the
explicit date-free list below; (2) no default stock location is resolved
(no `stock.location` search happens) even though none exists, so the
operation does not fail; (3) the line search is keyed by
`(inventory_id, product_id)` of a freshly created adjustment, not by
`(product_id, location_id)`. -/
theorem C2_counterexample :
    update_product_stock c2EnvFound 42 5 none = (c2TraceFound, Except.ok c2Prod)
    ∧ (∀ c ∈ c2TraceFound, ∀ kv ∈ callVals c,
        kv.1 ∈ (["name", "product_ids", "product_qty"] : List String))
    ∧ (∀ c ∈ c2TraceFound, searchesLocation c = false)
    ∧ c2EnvFound.locationSearch = [] :=
  ⟨rfl, by decide, by decide, rfl⟩

/-- Claim C2 (amended): for a stock update with a product id, a desired
quantity and no location id, the operation creates a fresh inventory
adjustment, starts it, and searches its lines by
`(inventory_id, product_id)`; if lines are found it overwrites their
desired-quantity field (`product_qty`), otherwise it resolves a default
internal stock location of the fixed company 1 (failing exactly when that
search is empty) and creates a new line with the desired quantity; in both
cases no inventory-count date of any kind is stamped (every written field
is in the explicit list below), and on success the operation re-reads and
returns the product's canonical snapshot.  Re-applying the same desired
quantity issues the same quantity value in every written field, so the
resulting quant state converges; there is no count date to advance. -/
theorem C2_stock_upsert (env : StockEnv) (pid : Nat) (q : ℚ) :
    (env.lineSearch ≠ [] →
       ErpCall.write "stock.inventory.line" env.lineSearch
           [("product_qty", EVal.q q)]
         ∈ (update_product_stock env pid q none).1)
    ∧ (env.lineSearch = [] →
        ErpCall.search "stock.location"
            [("usage", "=", EVal.s "internal"), ("company_id", "=", EVal.i 1)]
            (some 1)
          ∈ (update_product_stock env pid q none).1
        ∧ ((update_product_stock env pid q none).2
            = Except.error StockErr.noSuitableLocation
          ↔ env.locationSearch = [])
        ∧ (∀ l rest, env.locationSearch = l :: rest →
            ErpCall.create "stock.inventory.line"
                [("inventory_id", EVal.i env.inventoryId),
                 ("product_id", EVal.i pid),
                 ("location_id", EVal.i l),
                 ("product_qty", EVal.q q)]
              ∈ (update_product_stock env pid q none).1))
    ∧ (∀ prod, (update_product_stock env pid q none).2 = Except.ok prod →
        env.productRead = some prod
        ∧ ErpCall.read "product.product" [pid]
            ∈ (update_product_stock env pid q none).1)
    ∧ (∀ c ∈ (update_product_stock env pid q none).1, ∀ kv ∈ callVals c,
        kv.1 ∈ (["name", "product_ids", "inventory_id", "product_id",
                 "location_id", "product_qty"] : List String)) := by
  rcases hline : env.lineSearch with _ | ⟨i0, irest⟩
  · rcases hloc : env.locationSearch with _ | ⟨l0, rest0⟩
    · have ht : (update_product_stock env pid q none).1 =
          [ErpCall.create "stock.inventory"
             [("name", EVal.s ("Stock update for product ID " ++ toString pid)),
              ("product_ids", EVal.link 4 pid)],
           ErpCall.actionStart "stock.inventory" [env.inventoryId],
           ErpCall.search "stock.inventory.line"
             [("inventory_id", "=", EVal.i env.inventoryId),
              ("product_id", "=", EVal.i pid)] none,
           ErpCall.search "stock.location"
             [("usage", "=", EVal.s "internal"),
              ("company_id", "=", EVal.i 1)] (some 1)] := by
        simp [update_product_stock, hline, hloc, isTruthy]
      have hres : (update_product_stock env pid q none).2
          = Except.error StockErr.noSuitableLocation := by
        simp [update_product_stock, hline, hloc, isTruthy]
      refine ⟨fun h => absurd rfl h, fun _ => ?_, ?_, ?_⟩
      · refine ⟨?_, ?_, fun l rest h => nomatch h⟩
        · rw [ht]
          simp
        · rw [hres]
          simp
      · intro prod hok
        rw [hres] at hok
        exact nomatch hok
      · intro c hc
        rw [ht] at hc
        fin_cases hc <;> simp [callVals]
    · have ht : (update_product_stock env pid q none).1 =
          [ErpCall.create "stock.inventory"
             [("name", EVal.s ("Stock update for product ID " ++ toString pid)),
              ("product_ids", EVal.link 4 pid)],
           ErpCall.actionStart "stock.inventory" [env.inventoryId],
           ErpCall.search "stock.inventory.line"
             [("inventory_id", "=", EVal.i env.inventoryId),
              ("product_id", "=", EVal.i pid)] none,
           ErpCall.search "stock.location"
             [("usage", "=", EVal.s "internal"),
              ("company_id", "=", EVal.i 1)] (some 1),
           ErpCall.create "stock.inventory.line"
             [("inventory_id", EVal.i env.inventoryId),
              ("product_id", EVal.i pid),
              ("location_id", EVal.i l0),
              ("product_qty", EVal.q q)],
           ErpCall.actionValidate "stock.inventory" [env.inventoryId],
           ErpCall.read "product.product" [pid]] := by
        rcases hpr : env.productRead with _ | prod0 <;>
          simp [update_product_stock, hline, hloc, hpr, isTruthy]
      refine ⟨fun h => absurd rfl h, fun _ => ?_, ?_, ?_⟩
      · refine ⟨?_, ?_, fun l rest h => ?_⟩
        · rw [ht]
          simp
        · rcases hpr : env.productRead with _ | prod0
          · have hres : (update_product_stock env pid q none).2
                = Except.error (StockErr.productNotFound pid) := by
              simp [update_product_stock, hline, hloc, hpr, isTruthy]
            rw [hres]
            simp
          · have hres : (update_product_stock env pid q none).2
                = Except.ok prod0 := by
              simp [update_product_stock, hline, hloc, hpr, isTruthy]
            rw [hres]
            simp
        · cases h
          rw [ht]
          simp
      · intro prod hok
        rcases hpr : env.productRead with _ | prod0
        · have hres : (update_product_stock env pid q none).2
              = Except.error (StockErr.productNotFound pid) := by
            simp [update_product_stock, hline, hloc, hpr, isTruthy]
          rw [hres] at hok
          exact nomatch hok
        · have hres : (update_product_stock env pid q none).2
              = Except.ok prod0 := by
            simp [update_product_stock, hline, hloc, hpr, isTruthy]
          rw [hres] at hok
          cases hok
          refine ⟨rfl, ?_⟩
          rw [ht]
          simp
      · intro c hc
        rw [ht] at hc
        fin_cases hc <;> simp [callVals]
  · have ht : (update_product_stock env pid q none).1 =
        [ErpCall.create "stock.inventory"
           [("name", EVal.s ("Stock update for product ID " ++ toString pid)),
            ("product_ids", EVal.link 4 pid)],
         ErpCall.actionStart "stock.inventory" [env.inventoryId],
         ErpCall.search "stock.inventory.line"
           [("inventory_id", "=", EVal.i env.inventoryId),
            ("product_id", "=", EVal.i pid)] none,
         ErpCall.write "stock.inventory.line" (i0 :: irest)
           [("product_qty", EVal.q q)],
         ErpCall.actionValidate "stock.inventory" [env.inventoryId],
         ErpCall.read "product.product" [pid]] := by
      rcases hpr : env.productRead with _ | prod0 <;>
        simp [update_product_stock, hline, hpr, isTruthy]
    refine ⟨fun _ => ?_, ?_, ?_, ?_⟩
    · rw [ht]
      simp
    · intro h
      simp at h
    · intro prod hok
      rcases hpr : env.productRead with _ | prod0
      · have hres : (update_product_stock env pid q none).2
            = Except.error (StockErr.productNotFound pid) := by
          simp [update_product_stock, hline, hpr, isTruthy]
        rw [hres] at hok
        exact nomatch hok
      · have hres : (update_product_stock env pid q none).2
            = Except.ok prod0 := by
          simp [update_product_stock, hline, hpr, isTruthy]
        rw [hres] at hok
        cases hok
        refine ⟨rfl, ?_⟩
        rw [ht]
        simp
    · intro c hc
      rw [ht] at hc
      fin_cases hc <;> simp [callVals]

/-- Witness for C2 (amended) on the create path `c2EnvCreate`. -/
theorem C2_stock_upsert_witness :
    ErpCall.search "stock.location"
        [("usage", "=", EVal.s "internal"), ("company_id", "=", EVal.i 1)]
        (some 1)
      ∈ (update_product_stock c2EnvCreate 42 5 none).1
    ∧ ErpCall.create "stock.inventory.line"
        [("inventory_id", EVal.i c2EnvCreate.inventoryId),
         ("product_id", EVal.i 42),
         ("location_id", EVal.i 3),
         ("product_qty", EVal.q 5)]
      ∈ (update_product_stock c2EnvCreate 42 5 none).1 :=
  ⟨((C2_stock_upsert c2EnvCreate 42 5).2.1 rfl).1,
   ((C2_stock_upsert c2EnvCreate 42 5).2.1 rfl).2.2 3 [] rfl⟩

end RelbaseSync
